import Mathlib

/-!
Verification development for the multi-provider LLM client of the
hexo-copilot repository (services/llmService.ts).

The embedding models the chat-session state machine, the three
wire-format translators (OpenAI-compatible, Anthropic, Google), the
provider dispatch rule and the response decoders.  Network effects are
modelled by an explicit oracle: a `Network` record of functions from the
issued HTTP request to a fetch outcome.
-/

set_option maxRecDepth 4000

/-! ## String utilities modelling the JavaScript primitives used by the source -/

/-- Does the first list of characters occur at the head of the second one? -/
def leadsList : List Char → List Char → Bool
  | [], _ => true
  | _ :: _, [] => false
  | a :: as, b :: bs => a == b && leadsList as bs

/-- Does the first list occur contiguously anywhere inside the second one?
Models `String.prototype.includes` on the underlying character lists. -/
def occursList (needle : List Char) : List Char → Bool
  | [] => leadsList needle []
  | hay@(_ :: t) => leadsList needle hay || occursList needle t

/-- Models the JavaScript `haystack.includes(needle)` substring test. -/
def jsIncludes (haystack needle : String) : Bool :=
  occursList needle.data haystack.data

/-- The remainder of the second list after the first occurrence of the
separator list, or none when the separator does not occur. -/
def afterList (sep : List Char) : List Char → Option (List Char)
  | [] => if leadsList sep [] then some (([] : List Char).drop sep.length) else none
  | hay@(_ :: t) =>
    if leadsList sep hay then some (hay.drop sep.length) else afterList sep t

/-- Models the regex replace `baseUrl.replace(/\/$/, "")`: remove one
trailing slash when present. -/
def stripTrailingSlash (s : String) : String :=
  match s.data.reverse with
  | c :: rest => if c == '/' then String.mk rest.reverse else s
  | [] => s

/-- Does the string end in a slash character? -/
def endsWithSlash (s : String) : Bool :=
  match s.data.reverse with
  | c :: _ => c == '/'
  | [] => false

/-- Models `Array.prototype.join(sep)` on a list of strings. -/
def joinWith (sep : String) : List String → String
  | [] => ""
  | [x] => x
  | x :: y :: xs => x ++ sep ++ joinWith sep (y :: xs)

/-- Models JavaScript truthiness of a nullable string: `null`, `undefined`
and the empty string are falsy, every other string is truthy. -/
def jsTruthy : Option String → Bool
  | none => false
  | some s => s != ""

/-- Models the JavaScript `a || b` fallback on a nullable string:
the fallback is taken when the value is null, undefined or empty. -/
def jsOr (v : Option String) (fallback : String) : String :=
  match v with
  | none => fallback
  | some s => if s == "" then fallback else s

/-! ## Data model (services/llmService.ts and the configuration types) -/

/-- The five provider identities of type `LLMProvider`. -/
inductive LLMProvider where
  | openai
  | claude
  | gemini
  | qwen
  | deepseek
deriving DecidableEq, Repr

/-- Per-provider configuration: nullable credential, nullable base URL
override, nullable model override. -/
structure ProviderConfig where
  api_key : Option String
  base_url : Option String
  model : Option String
deriving DecidableEq, Repr

/-- Per-provider static defaults from the `PROVIDER_DEFAULTS` table. -/
structure ProviderDefaults where
  name : String
  defaultBaseUrl : String
  defaultModel : String
  placeholder : String
  description : String
deriving DecidableEq, Repr

/-- The static provider registry `PROVIDER_DEFAULTS` of the source. -/
def PROVIDER_DEFAULTS : LLMProvider → ProviderDefaults
  | .openai =>
    { name := "OpenAI (GPT)"
      defaultBaseUrl := "https://api.openai.com/v1"
      defaultModel := "gpt-4o-mini"
      placeholder := "sk-..."
      description := "支持 GPT-4o, GPT-4o-mini, GPT-4-turbo 等" }
  | .claude =>
    { name := "Claude (Anthropic)"
      defaultBaseUrl := "https://api.anthropic.com"
      defaultModel := "claude-3-5-sonnet-20241022"
      placeholder := "sk-ant-..."
      description := "支持 Claude 3.5 Sonnet, Claude 3 Opus 等" }
  | .gemini =>
    { name := "Gemini (Google)"
      defaultBaseUrl := "https://generativelanguage.googleapis.com/v1beta"
      defaultModel := "gemini-2.0-flash-exp"
      placeholder := "AIza..."
      description := "支持 Gemini 2.0 Flash, Gemini 1.5 Pro 等" }
  | .qwen =>
    { name := "通义千问 (Qwen)"
      defaultBaseUrl := "https://dashscope.aliyuncs.com/compatible-mode/v1"
      defaultModel := "qwen-plus"
      placeholder := "sk-..."
      description := "支持 qwen-turbo, qwen-plus, qwen-max 等" }
  | .deepseek =>
    { name := "DeepSeek"
      defaultBaseUrl := "https://api.deepseek.com/v1"
      defaultModel := "deepseek-chat"
      placeholder := "sk-..."
      description := "支持 deepseek-chat, deepseek-coder 等" }

/-- The fixed system instruction `SYSTEM_INSTRUCTION` of the source. -/
def SYSTEM_INSTRUCTION : String :=
  "You are an expert technical writing assistant for a Hexo blog.\nYour goal is to help the user write high-quality Markdown content.\nYou have context about technical topics, coding, and clear writing styles.\nWhen providing code snippets, use standard Markdown code blocks.\nKeep your answers concise and ready to be inserted into a blog post."

/-- Message roles of the `ChatMessage` interface. -/
inductive Role where
  | user
  | assistant
  | system
deriving DecidableEq, Repr

/-- The literal string value carried by a role in the TypeScript union type. -/
def Role.toWire : Role → String
  | .user => "user"
  | .assistant => "assistant"
  | .system => "system"

/-- A chat message: role and content. -/
structure ChatMessage where
  role : Role
  content : String
deriving DecidableEq, Repr

/-- Exact decimal number, used for the literal `0.7` in request bodies
(mantissa scaled by ten to the minus shift; no arithmetic is performed). -/
structure Decimal where
  mantissa : Int
  shift : Nat
deriving DecidableEq, Repr

/-- The decimal literal 0.7. -/
def decimalZeroPointSeven : Decimal := { mantissa := 7, shift := 1 }

/-! ## Wire-format request shapes -/

/-- A `(role, content)` pair as serialized into a request body. -/
structure WireMessage where
  role : String
  content : String
deriving DecidableEq, Repr

/-- Body of an OpenAI-compatible chat-completions request. -/
structure OpenAIRequestBody where
  model : String
  messages : List WireMessage
  temperature : Decimal
  max_tokens : Nat
deriving DecidableEq, Repr

/-- Body of an Anthropic messages request. -/
structure ClaudeRequestBody where
  model : String
  max_tokens : Nat
  system : String
  messages : List WireMessage
deriving DecidableEq, Repr

/-- A text part in the Google request body. -/
structure GeminiPart where
  text : String
deriving DecidableEq, Repr

/-- One entry of the `contents` array of the Google request body. -/
structure GeminiContent where
  role : String
  parts : List GeminiPart
deriving DecidableEq, Repr

/-- The `generationConfig` object of the Google request body. -/
structure GenerationConfig where
  temperature : Decimal
  maxOutputTokens : Nat
deriving DecidableEq, Repr

/-- The `systemInstruction` object of the Google request body. -/
structure GeminiSystemInstruction where
  parts : List GeminiPart
deriving DecidableEq, Repr

/-- Body of a Google generateContent request; `systemInstruction` is only
set when the source assigns it. -/
structure GeminiRequestBody where
  contents : List GeminiContent
  generationConfig : GenerationConfig
  systemInstruction : Option GeminiSystemInstruction
deriving DecidableEq, Repr

/-- The JSON body of an outgoing request, tagged by wire format. -/
inductive RequestBody where
  | openaiCompat (b : OpenAIRequestBody)
  | anthropic (b : ClaudeRequestBody)
  | google (b : GeminiRequestBody)
deriving DecidableEq, Repr

/-- An outgoing HTTP request as handed to `fetch`. -/
structure HttpRequest where
  url : String
  method : String
  headers : List (String × String)
  body : RequestBody
deriving DecidableEq, Repr

/-! ## Response shapes and decoders -/

/-- One part of an array-shaped `message.content`; `type` and `text` are
nullable since the JSON may omit them. -/
structure OAPart where
  type : Option String
  text : Option String
deriving DecidableEq, Repr

/-- The `message.content` field: a string, an array of parts, or any
other JSON shape. -/
inductive OAContent where
  | str (s : String)
  | arr (parts : List OAPart)
  | other
deriving DecidableEq, Repr

/-- The `message` object of a choice. -/
structure OAMessage where
  content : OAContent
deriving DecidableEq, Repr

/-- One element of the `choices` array; `message` may be absent. -/
structure OAChoice where
  message : Option OAMessage
deriving DecidableEq, Repr

/-- A parsed OpenAI-compatible 2xx response body; `choices` may be absent. -/
structure OpenAIResponseBody where
  choices : Option (List OAChoice)
deriving DecidableEq, Repr

/-- Decoder of the OpenAI-compatible response (source lines 155-179):
read `choices[0].message.content`; a string is returned verbatim, an
array is filtered to its text-typed parts and joined by newline, and any
other shape or a missing choice or message yields the empty string. -/
def decodeOpenAI (data : OpenAIResponseBody) : String :=
  match data.choices.bind List.head? with
  | none => ""
  | some choice =>
    match choice.message with
    | none => ""
    | some message =>
      match message.content with
      | .str s => s
      | .arr parts =>
        let textParts :=
          joinWith "\n"
            ((parts.filter fun p => p.type == some "text").map fun p => p.text.getD "")
        if textParts == "" then "" else textParts
      | .other => ""

/-- One block of the Anthropic response `content` array. -/
structure ClaudeContentBlock where
  text : Option String
deriving DecidableEq, Repr

/-- A parsed Anthropic 2xx response body. -/
structure ClaudeResponseBody where
  content : Option (List ClaudeContentBlock)
deriving DecidableEq, Repr

/-- Decoder of the Anthropic response: `data.content?.[0]?.text || ""`. -/
def decodeClaude (data : ClaudeResponseBody) : String :=
  (((data.content.bind List.head?).bind fun blk => blk.text)).getD ""

/-- One part of a Google response candidate content. -/
structure GeminiRespPart where
  text : Option String
deriving DecidableEq, Repr

/-- The `content` object of a Google response candidate. -/
structure GeminiRespContent where
  parts : Option (List GeminiRespPart)
deriving DecidableEq, Repr

/-- One element of the Google response `candidates` array. -/
structure GeminiCandidate where
  content : Option GeminiRespContent
deriving DecidableEq, Repr

/-- A parsed Google 2xx response body. -/
structure GeminiResponseBody where
  candidates : Option (List GeminiCandidate)
deriving DecidableEq, Repr

/-- Decoder of the Google response:
`data.candidates?.[0]?.content?.parts?.[0]?.text || ""`. -/
def decodeGemini (data : GeminiResponseBody) : String :=
  ((((data.candidates.bind List.head?).bind fun c => c.content).bind
      fun ct => ct.parts).bind List.head?).bind (fun p => p.text) |>.getD ""

/-! ## Network oracle -/

/-- Outcome of one `fetch` call: a parsed 2xx body, a non-2xx status with
its body text, or a thrown transport error. -/
inductive FetchOutcome (β : Type) where
  | ok (body : β)
  | httpErr (status : Nat) (body : String)
  | netErr (msg : String)
deriving DecidableEq, Repr

/-- The network environment for a single API call: what `fetch` would
return for a request of each wire format. -/
structure Network where
  oa : HttpRequest → FetchOutcome OpenAIResponseBody
  an : HttpRequest → FetchOutcome ClaudeResponseBody
  ge : HttpRequest → FetchOutcome GeminiResponseBody

/-- The message thrown on a non-2xx response:
`API 请求失败 (status): body`. -/
def httpFailMsg (status : Nat) (body : String) : String :=
  "API 请求失败 (" ++ toString status ++ "): " ++ body

/-! ## The three translators -/

/-- The request built by `callOpenAICompatible` (source lines 131-148). -/
def openAICompatRequest (baseUrl apiKey model : String)
    (messages : List ChatMessage) : HttpRequest :=
  { url := stripTrailingSlash baseUrl ++ "/chat/completions"
    method := "POST"
    headers :=
      [("Content-Type", "application/json"),
       ("Authorization", "Bearer " ++ apiKey)]
    body := RequestBody.openaiCompat
      { model := model
        messages := messages.map fun m =>
          { role := m.role.toWire, content := m.content }
        temperature := decimalZeroPointSeven
        max_tokens := 4096 } }

/-- The OpenAI-compatible translator: build the request, fetch, throw on
non-2xx or transport failure, decode the 2xx body. -/
def callOpenAICompatible (baseUrl apiKey model : String)
    (messages : List ChatMessage)
    (fetch : HttpRequest → FetchOutcome OpenAIResponseBody) :
    Except String String :=
  match fetch (openAICompatRequest baseUrl apiKey model messages) with
  | .netErr msg => .error msg
  | .httpErr status body => .error (httpFailMsg status body)
  | .ok data => .ok (decodeOpenAI data)

/-- The body built by `callClaude` (source lines 191-212): the first
system message content is lifted into the `system` field (empty string
when none), the remaining messages keep role assistant and coerce every
other role to user, and `max_tokens` is fixed at 4096. -/
def claudeBody (model : String) (messages : List ChatMessage) :
    ClaudeRequestBody :=
  { model := model
    max_tokens := 4096
    system := ((messages.find? fun m => m.role == Role.system).map
      fun m => m.content).getD ""
    messages := (messages.filter fun m => m.role != Role.system).map fun m =>
      { role := if m.role == Role.assistant then "assistant" else "user"
        content := m.content } }

/-- The request built by `callClaude`: URL `{baseUrl}/v1/messages`, headers
`x-api-key` and `anthropic-version` and no Authorization header. -/
def claudeRequest (baseUrl apiKey model : String)
    (messages : List ChatMessage) : HttpRequest :=
  { url := stripTrailingSlash baseUrl ++ "/v1/messages"
    method := "POST"
    headers :=
      [("Content-Type", "application/json"),
       ("x-api-key", apiKey),
       ("anthropic-version", "2023-06-01")]
    body := RequestBody.anthropic (claudeBody model messages) }

/-- The Anthropic-native translator. -/
def callClaude (baseUrl apiKey model : String)
    (messages : List ChatMessage)
    (fetch : HttpRequest → FetchOutcome ClaudeResponseBody) :
    Except String String :=
  match fetch (claudeRequest baseUrl apiKey model messages) with
  | .netErr msg => .error msg
  | .httpErr status body => .error (httpFailMsg status body)
  | .ok data => .ok (decodeClaude data)

/-- The body built by `callGemini` (source lines 234-252): assistant maps
to role `model`, every other non-system role to `user`; the system
message content is lifted into `systemInstruction` only when it is a
truthy (present and non-empty) string. -/
def geminiBody (messages : List ChatMessage) : GeminiRequestBody :=
  { contents := (messages.filter fun m => m.role != Role.system).map fun m =>
      { role := if m.role == Role.assistant then "model" else "user"
        parts := [{ text := m.content }] }
    generationConfig :=
      { temperature := decimalZeroPointSeven, maxOutputTokens := 4096 }
    systemInstruction :=
      match (messages.find? fun m => m.role == Role.system).map
          (fun m => m.content) with
      | none => none
      | some s => if s == "" then none else some { parts := [{ text := s }] } }

/-- The request built by `callGemini`: the credential rides in the query
string and the only header is the content type. -/
def geminiRequest (baseUrl apiKey model : String)
    (messages : List ChatMessage) : HttpRequest :=
  { url := stripTrailingSlash baseUrl ++ "/models/" ++ model
      ++ ":generateContent?key=" ++ apiKey
    method := "POST"
    headers := [("Content-Type", "application/json")]
    body := RequestBody.google (geminiBody messages) }

/-- The Google-native translator. -/
def callGemini (baseUrl apiKey model : String)
    (messages : List ChatMessage)
    (fetch : HttpRequest → FetchOutcome GeminiResponseBody) :
    Except String String :=
  match fetch (geminiRequest baseUrl apiKey model messages) with
  | .netErr msg => .error msg
  | .httpErr status body => .error (httpFailMsg status body)
  | .ok data => .ok (decodeGemini data)

/-! ## Dispatch and chat session -/

/-- Which wire-format translator a call uses. -/
inductive Translator where
  | openaiCompatible
  | anthropicNative
  | googleNative
deriving DecidableEq, Repr

/-- The routing decision of the `switch` in `callAPI` (source lines
102-121): openai, qwen and deepseek always use the OpenAI-compatible
translator; claude falls back to it unless the base URL string contains
`anthropic.com`; gemini falls back unless it contains `googleapis.com`. -/
def routeTranslator (provider : LLMProvider) (baseUrl : String) : Translator :=
  match provider with
  | .openai => .openaiCompatible
  | .qwen => .openaiCompatible
  | .deepseek => .openaiCompatible
  | .claude =>
    if !(jsIncludes baseUrl "anthropic.com") then .openaiCompatible
    else .anthropicNative
  | .gemini =>
    if !(jsIncludes baseUrl "googleapis.com") then .openaiCompatible
    else .googleNative

/-- A chat session: message history, provider identity and provider
configuration snapshot. -/
structure ChatSession where
  messages : List ChatMessage
  provider : LLMProvider
  config : ProviderConfig
deriving DecidableEq, Repr

/-- The system instruction message appended at construction and reset. -/
def systemMsg : ChatMessage :=
  { role := Role.system, content := SYSTEM_INSTRUCTION }

/-- The `ChatSession` constructor: store provider and config and seed the
history with the system instruction. -/
def ChatSession.construct (provider : LLMProvider) (config : ProviderConfig) :
    ChatSession :=
  { messages := [systemMsg], provider := provider, config := config }

/-- `this.messages.push(m)`. -/
def ChatSession.pushMessage (self : ChatSession) (m : ChatMessage) :
    ChatSession :=
  { self with messages := self.messages ++ [m] }

/-- `callAPI` (source lines 93-122): fail when the credential is falsy
before consulting the network, resolve effective base URL and model with
the registry defaults, then dispatch on the provider. -/
def ChatSession.callAPI (self : ChatSession) (net : Network) :
    Except String String :=
  if !(jsTruthy self.config.api_key) then
    .error "API Key 未配置，请在设置中填写"
  else
    let apiKey := self.config.api_key.getD ""
    let baseUrl :=
      jsOr self.config.base_url (PROVIDER_DEFAULTS self.provider).defaultBaseUrl
    let model :=
      jsOr self.config.model (PROVIDER_DEFAULTS self.provider).defaultModel
    match routeTranslator self.provider baseUrl with
    | .openaiCompatible =>
      callOpenAICompatible baseUrl apiKey model self.messages net.oa
    | .anthropicNative =>
      callClaude baseUrl apiKey model self.messages net.an
    | .googleNative =>
      callGemini baseUrl apiKey model self.messages net.ge

/-- `sendMessage` (source lines 77-91): push the user turn, call the API,
push the assistant turn and return the reply on success, or return the
formatted error string and leave the history at the user turn on failure. -/
def ChatSession.sendMessage (self : ChatSession) (userMessage : String)
    (net : Network) : ChatSession × String :=
  let s1 := self.pushMessage { role := Role.user, content := userMessage }
  match s1.callAPI net with
  | .ok response =>
    (s1.pushMessage { role := Role.assistant, content := response }, response)
  | .error e =>
    (s1, "Error: " ++ (if e == "" then "Unknown error occurred" else e))

/-- `reset` (source lines 272-275): replace the history by the single
system instruction. -/
def ChatSession.reset (self : ChatSession) : ChatSession :=
  { self with messages := [systemMsg] }

/-! ## Module-level API -/

/-- Application configuration: selected provider and the per-provider
configuration table. -/
structure AppConfig where
  hexo_path : Option String
  llm_provider : LLMProvider
  providers : LLMProvider → ProviderConfig

/-- `createChatSession` (source lines 278-288): null when the selected
provider has a falsy credential, otherwise a fresh session. -/
def createChatSession (config : AppConfig) : Option ChatSession :=
  let provider := config.llm_provider
  let providerConfig := config.providers provider
  if !(jsTruthy providerConfig.api_key) then none
  else some (ChatSession.construct provider providerConfig)

/-- The module-level `sendMessage` (source lines 291-299): a null session
yields a fixed error string, otherwise delegate to the session. -/
def sendMessage (session : Option ChatSession) (message : String)
    (net : Network) : Option ChatSession × String :=
  match session with
  | none => (none, "Error: 聊天会话未初始化，请先配置 API Key")
  | some s =>
    let r := s.sendMessage message net
    (some r.1, r.2)

/-! ## Operation sequences over a session -/

/-- One externally visible operation on a session. -/
inductive SessionOp where
  | send (text : String) (net : Network)
  | reset

/-- Apply one operation, keeping only the session state. -/
def applyOp (s : ChatSession) : SessionOp → ChatSession
  | .send text net => (s.sendMessage text net).1
  | .reset => s.reset

/-- Apply a sequence of operations left to right. -/
def applyOps (s : ChatSession) (ops : List SessionOp) : ChatSession :=
  ops.foldl applyOp s

/-- Number of system-role messages in a history. -/
def countSystem (l : List ChatMessage) : Nat :=
  (l.filter fun m => m.role == Role.system).length

/-- Modelled from the spec: the host component of a URL, read as the text
after the scheme separator and before the first slash.  The source never
computes a host; the spec's dispatch rule speaks of one, so this
definition renders the spec's words for comparison. -/
def urlHost (url : String) : String :=
  String.mk (((afterList "://".data url.data).getD url.data).takeWhile
    fun c => c != '/')

/-! ## Sample values used by the witnesses -/

/-- A provider configuration with a configured credential. -/
def sampleConfig : ProviderConfig :=
  { api_key := some "sk-test", base_url := none, model := none }

/-- A fresh openai session over `sampleConfig`. -/
def sampleSession : ChatSession :=
  ChatSession.construct LLMProvider.openai sampleConfig

/-- A 2xx OpenAI-compatible body whose reply text is `hello`. -/
def sampleOkBody : OpenAIResponseBody :=
  { choices := some [{ message := some { content := OAContent.str "hello" } }] }

/-- A network that answers every OpenAI-compatible request with
`sampleOkBody` and fails the other wire formats. -/
def sampleNet : Network :=
  { oa := fun _ => .ok sampleOkBody
    an := fun _ => .netErr "unreachable"
    ge := fun _ => .netErr "unreachable" }

/-! ## Helper lemmas -/

theorem head?_append_left {α : Type} {l l' : List α} {a : α}
    (h : l.head? = some a) : (l ++ l').head? = some a := by
  cases l with
  | nil => simp at h
  | cons x xs => simpa using h

theorem countSystem_append (l l' : List ChatMessage) :
    countSystem (l ++ l') = countSystem l + countSystem l' := by
  simp [countSystem, List.filter_append]

/-- The history invariant: system instruction at the head, exactly one
system-role message overall. -/
def sessionInvariant (s : ChatSession) : Prop :=
  s.messages.head? = some systemMsg ∧ countSystem s.messages = 1

theorem sessionInvariant_construct (p : LLMProvider) (c : ProviderConfig) :
    sessionInvariant (ChatSession.construct p c) := by
  constructor
  · rfl
  · simp [countSystem, ChatSession.construct, systemMsg]

theorem sessionInvariant_pushMessage (s : ChatSession) (m : ChatMessage)
    (hm : m.role ≠ Role.system) (h : sessionInvariant s) :
    sessionInvariant (s.pushMessage m) := by
  obtain ⟨h1, h2⟩ := h
  have hb : (m.role == Role.system) = false := beq_eq_false_iff_ne.mpr hm
  constructor
  · exact head?_append_left h1
  · show countSystem (s.messages ++ [m]) = 1
    rw [countSystem_append, h2]
    simp [countSystem, hb]

theorem sessionInvariant_applyOp (s : ChatSession) (op : SessionOp)
    (h : sessionInvariant s) : sessionInvariant (applyOp s op) := by
  cases op with
  | reset =>
    constructor
    · rfl
    · simp [applyOp, ChatSession.reset, countSystem, systemMsg]
  | send text net =>
    have hu : sessionInvariant
        (s.pushMessage { role := Role.user, content := text }) :=
      sessionInvariant_pushMessage _ _ (by simp) h
    show sessionInvariant (s.sendMessage text net).1
    cases hc : (s.pushMessage { role := Role.user, content := text }).callAPI net with
    | ok reply =>
      have : (s.sendMessage text net).1
          = (s.pushMessage { role := Role.user, content := text }).pushMessage
              { role := Role.assistant, content := reply } := by
        simp [ChatSession.sendMessage, hc]
      rw [this]
      exact sessionInvariant_pushMessage _ _ (by simp) hu
    | error e =>
      have : (s.sendMessage text net).1
          = s.pushMessage { role := Role.user, content := text } := by
        simp [ChatSession.sendMessage, hc]
      rw [this]
      exact hu

theorem sessionInvariant_applyOps (s : ChatSession) (ops : List SessionOp)
    (h : sessionInvariant s) : sessionInvariant (applyOps s ops) := by
  induction ops generalizing s with
  | nil => simpa [applyOps] using h
  | cons op ops ih =>
    have : applyOps s (op :: ops) = applyOps (applyOp s op) ops := by
      simp [applyOps]
    rw [this]
    exact ih _ (sessionInvariant_applyOp s op h)

/-! ## Claim theorems -/

/-- C2: after construction and after every sequence of sendMessage and
reset operations, the history has length at least one, the message at
index zero is the system instruction with role system, and no operation
ever inserts a second system-role message. -/
theorem C2_system_message_invariant (p : LLMProvider) (c : ProviderConfig)
    (ops : List SessionOp) :
    1 ≤ (applyOps (ChatSession.construct p c) ops).messages.length
    ∧ (applyOps (ChatSession.construct p c) ops).messages.head? = some systemMsg
    ∧ countSystem (applyOps (ChatSession.construct p c) ops).messages = 1 := by
  obtain ⟨h1, h2⟩ :=
    sessionInvariant_applyOps _ ops (sessionInvariant_construct p c)
  refine ⟨?_, h1, h2⟩
  cases hm : (applyOps (ChatSession.construct p c) ops).messages with
  | nil => rw [hm] at h1; simp at h1
  | cons a l => simp

/-- C9: reset leaves the history equal to the single freshly inserted
system instruction, the state after reset equals the state after
construction with the same provider and configuration, and reset is
idempotent. -/
theorem C9_reset_idempotent (s : ChatSession) :
    s.reset.messages = [systemMsg]
    ∧ s.reset = ChatSession.construct s.provider s.config
    ∧ s.reset.reset = s.reset :=
  ⟨rfl, rfl, rfl⟩

/-- C10: the module-level sendMessage on a null session returns the fixed
error string beginning with "Error: ", keeps the session null, and does
not depend on the network oracle. -/
theorem C10_null_session_total (text : String) (net : Network) :
    sendMessage none text net
        = (none, "Error: 聊天会话未初始化，请先配置 API Key")
    ∧ (∃ rest, (sendMessage none text net).2 = "Error: " ++ rest)
    ∧ ∀ net2, sendMessage none text net = sendMessage none text net2 := by
  refine ⟨rfl, ⟨"聊天会话未初始化，请先配置 API Key", ?_⟩, fun _ => rfl⟩
  show ("Error: 聊天会话未初始化，请先配置 API Key" : String)
      = "Error: " ++ "聊天会话未初始化，请先配置 API Key"
  decide

/-- C1: sendMessage appends exactly one user turn; on adapter success it
additionally appends exactly one assistant turn containing the reply and
returns the reply; on any failure, including a falsy credential which
fails independently of the network, it appends only the user turn and
returns a string beginning with "Error: " instead of raising. -/
theorem C1_sendMessage_turn_discipline (s : ChatSession) (text : String)
    (net : Network) :
    (∀ reply,
        (s.pushMessage { role := Role.user, content := text }).callAPI net
            = Except.ok reply →
        (s.sendMessage text net).1.messages
            = s.messages ++ [{ role := Role.user, content := text },
                             { role := Role.assistant, content := reply }]
          ∧ (s.sendMessage text net).2 = reply)
    ∧ (∀ e,
        (s.pushMessage { role := Role.user, content := text }).callAPI net
            = Except.error e →
        (s.sendMessage text net).1.messages
            = s.messages ++ [{ role := Role.user, content := text }]
          ∧ ∃ rest, (s.sendMessage text net).2 = "Error: " ++ rest)
    ∧ (jsTruthy s.config.api_key = false →
        (∃ e, (s.pushMessage { role := Role.user, content := text }).callAPI net
            = Except.error e)
          ∧ ∀ net2, s.sendMessage text net = s.sendMessage text net2) := by
  refine ⟨?_, ?_, ?_⟩
  · intro reply h
    simp only [ChatSession.pushMessage] at h
    constructor
    · simp [ChatSession.sendMessage, h, ChatSession.pushMessage]
    · simp [ChatSession.sendMessage, h, ChatSession.pushMessage]
  · intro e h
    simp only [ChatSession.pushMessage] at h
    refine ⟨by simp [ChatSession.sendMessage, h, ChatSession.pushMessage], ?_⟩
    refine ⟨if e == "" then "Unknown error occurred" else e, ?_⟩
    simp [ChatSession.sendMessage, h, ChatSession.pushMessage]
  · intro hk
    have hcall : ∀ n : Network,
        (s.pushMessage { role := Role.user, content := text }).callAPI n
          = Except.error "API Key 未配置，请在设置中填写" := by
      intro n
      unfold ChatSession.callAPI
      have hc : (s.pushMessage { role := Role.user, content := text }).config
          = s.config := rfl
      rw [hc, hk]
      rfl
    refine ⟨⟨_, hcall net⟩, fun net2 => ?_⟩
    simp [ChatSession.sendMessage, hcall]

/-- C8: createChatSession returns null exactly when the selected provider
has no usable credential (absent, null or empty), and otherwise returns a
session whose history is the single system-instruction message. -/
theorem C8_createChatSession_credential_gate (config : AppConfig) :
    (createChatSession config = none
      ↔ ((config.providers config.llm_provider).api_key = none
          ∨ (config.providers config.llm_provider).api_key = some ""))
    ∧ ∀ s, createChatSession config = some s → s.messages = [systemMsg] := by
  unfold createChatSession
  cases hk : (config.providers config.llm_provider).api_key with
  | none =>
    simp [jsTruthy, hk]
  | some k =>
    by_cases hke : k = ""
    · subst hke
      simp [jsTruthy, hk]
    · have hb : (k != "") = true := by
        simp [hke]
      constructor
      · simp [jsTruthy, hk, hb, hke]
      · intro s hs
        simp [jsTruthy, hk, hb] at hs
        rw [← hs]
        rfl

/-- C1 witness: a concrete successful exchange appends the user and
assistant turns and returns the reply. -/
theorem C1_sendMessage_turn_discipline_witness :
    (sampleSession.sendMessage "hi" sampleNet).1.messages
        = sampleSession.messages
            ++ [{ role := Role.user, content := "hi" },
                { role := Role.assistant, content := "hello" }]
    ∧ (sampleSession.sendMessage "hi" sampleNet).2 = "hello" :=
  (C1_sendMessage_turn_discipline sampleSession "hi" sampleNet).1 "hello" rfl

/-- A configuration whose selected provider has a null credential. -/
def nullKeyConfig : AppConfig :=
  { hexo_path := none
    llm_provider := LLMProvider.openai
    providers := fun _ => { api_key := none, base_url := none, model := none } }

/-- C8 witness: a null credential for the selected provider yields null. -/
theorem C8_createChatSession_credential_gate_witness :
    createChatSession nullKeyConfig = none :=
  (C8_createChatSession_credential_gate nullKeyConfig).1.mpr (Or.inl rfl)

/-- C3 counterexample: at the concrete base URL
"https://proxy.example.com/anthropic.com" the vendor string occurs in the
URL path but not in its host, yet the code dispatches the claude identity
to the Anthropic-native translator, refuting the host-based reading of
the dispatch rule. -/
theorem C3_dispatch_host_counterexample :
    routeTranslator LLMProvider.claude "https://proxy.example.com/anthropic.com"
        = Translator.anthropicNative
    ∧ jsIncludes (urlHost "https://proxy.example.com/anthropic.com")
        "anthropic.com" = false := by
  constructor <;> decide

/-- C3 (amended): openai, qwen and deepseek always dispatch to the
OpenAI-compatible translator; claude dispatches to the Anthropic-native
translator exactly when the effective base URL string contains
"anthropic.com" as a substring, and gemini to the Google-native
translator exactly when it contains "googleapis.com"; otherwise both fall
back to the OpenAI-compatible translator. -/
theorem C3_dispatch_amended (p : LLMProvider) (baseUrl : String) :
    ((p = LLMProvider.openai ∨ p = LLMProvider.qwen ∨ p = LLMProvider.deepseek) →
        routeTranslator p baseUrl = Translator.openaiCompatible)
    ∧ (routeTranslator LLMProvider.claude baseUrl = Translator.anthropicNative
        ↔ jsIncludes baseUrl "anthropic.com" = true)
    ∧ (routeTranslator LLMProvider.claude baseUrl = Translator.openaiCompatible
        ↔ jsIncludes baseUrl "anthropic.com" = false)
    ∧ (routeTranslator LLMProvider.gemini baseUrl = Translator.googleNative
        ↔ jsIncludes baseUrl "googleapis.com" = true)
    ∧ (routeTranslator LLMProvider.gemini baseUrl = Translator.openaiCompatible
        ↔ jsIncludes baseUrl "googleapis.com" = false) := by
  refine ⟨?_, ?_, ?_, ?_, ?_⟩
  · rintro (rfl | rfl | rfl) <;> rfl
  · cases h : jsIncludes baseUrl "anthropic.com" <;> simp [routeTranslator, h]
  · cases h : jsIncludes baseUrl "anthropic.com" <;> simp [routeTranslator, h]
  · cases h : jsIncludes baseUrl "googleapis.com" <;> simp [routeTranslator, h]
  · cases h : jsIncludes baseUrl "googleapis.com" <;> simp [routeTranslator, h]

/-- C3 witness: a concrete instantiation of the always-OpenAI clause. -/
theorem C3_dispatch_amended_witness :
    routeTranslator LLMProvider.qwen
        "https://dashscope.aliyuncs.com/compatible-mode/v1"
      = Translator.openaiCompatible :=
  (C3_dispatch_amended LLMProvider.qwen
      "https://dashscope.aliyuncs.com/compatible-mode/v1").1
    (Or.inr (Or.inl rfl))

/-- The first message object of an OpenAI-compatible response:
`choices[0].message` when both are present. -/
def oaFirstMessage (d : OpenAIResponseBody) : Option OAMessage :=
  (d.choices.bind List.head?).bind fun c => c.message

/-- Decoding of one `message.content` value. -/
def decodeOAContent : OAContent → String
  | .str s => s
  | .arr parts =>
    let textParts :=
      joinWith "\n"
        ((parts.filter fun p => p.type == some "text").map fun p => p.text.getD "")
    if textParts == "" then "" else textParts
  | .other => ""

theorem decodeOpenAI_via_first (d : OpenAIResponseBody) :
    decodeOpenAI d
      = match oaFirstMessage d with
        | none => ""
        | some message => decodeOAContent message.content := by
  unfold decodeOpenAI oaFirstMessage
  cases hc : d.choices.bind List.head? with
  | none => rfl
  | some choice =>
    cases hm : choice.message with
    | none => rfl
    | some message => rfl

/-- C4: the OpenAI-compatible decoder returns a string content verbatim,
joins the text fields of the text-typed parts of an array content by
newline, and yields the empty string for any other shape or a missing
choice or message; a 2xx body never makes the translator fail. -/
theorem C4_openai_lenient_decode (d : OpenAIResponseBody) :
    (oaFirstMessage d = none → decodeOpenAI d = "")
    ∧ (∀ s, oaFirstMessage d = some { content := OAContent.str s } →
        decodeOpenAI d = s)
    ∧ (∀ parts, oaFirstMessage d = some { content := OAContent.arr parts } →
        decodeOpenAI d
          = joinWith "\n"
              ((parts.filter fun p => p.type == some "text").map
                fun p => p.text.getD ""))
    ∧ (oaFirstMessage d = some { content := OAContent.other } →
        decodeOpenAI d = "")
    ∧ ∀ baseUrl apiKey model messages,
        callOpenAICompatible baseUrl apiKey model messages
            (fun _ => FetchOutcome.ok d)
          = Except.ok (decodeOpenAI d) := by
  refine ⟨?_, ?_, ?_, ?_, fun _ _ _ _ => rfl⟩
  · intro h
    rw [decodeOpenAI_via_first, h]
  · intro s h
    rw [decodeOpenAI_via_first, h]
    rfl
  · intro parts h
    rw [decodeOpenAI_via_first, h]
    show decodeOAContent (OAContent.arr parts) = _
    unfold decodeOAContent
    by_cases ht :
        joinWith "\n"
          ((parts.filter fun p => p.type == some "text").map
            fun p => p.text.getD "") = ""
    · simp [ht]
    · simp [ht]
  · intro h
    rw [decodeOpenAI_via_first, h]
    rfl

/-- C4 witness: the sample body decodes to its reply text. -/
theorem C4_openai_lenient_decode_witness : decodeOpenAI sampleOkBody = "hello" :=
  (C4_openai_lenient_decode sampleOkBody).2.1 "hello" rfl

/-- C5: the Anthropic-native translator lifts the system-role message
content into the top-level system string field, sends no system role in
the messages array (assistant stays assistant, every other role becomes
user), fixes max_tokens at 4096, authenticates with the x-api-key and
anthropic-version headers and no Authorization header, and decodes a 2xx
response as content[0].text with empty string when absent. -/
theorem C5_claude_translator (baseUrl apiKey model : String)
    (messages : List ChatMessage) (d : ClaudeResponseBody) :
    (∀ m0, (messages.find? fun m => m.role == Role.system) = some m0 →
        (claudeBody model messages).system = m0.content)
    ∧ (∀ w, w ∈ (claudeBody model messages).messages →
        w.role = "user" ∨ w.role = "assistant")
    ∧ (claudeBody model messages).messages
        = (messages.filter fun m => m.role != Role.system).map
            (fun m =>
              { role := match m.role with
                        | Role.assistant => "assistant"
                        | _ => "user"
                content := m.content })
    ∧ (claudeBody model messages).max_tokens = 4096
    ∧ ("x-api-key", apiKey) ∈ (claudeRequest baseUrl apiKey model messages).headers
    ∧ ("anthropic-version", "2023-06-01")
        ∈ (claudeRequest baseUrl apiKey model messages).headers
    ∧ (∀ v, ("Authorization", v)
        ∉ (claudeRequest baseUrl apiKey model messages).headers)
    ∧ (∀ blk, d.content.bind List.head? = some blk →
        decodeClaude d = blk.text.getD "")
    ∧ (d.content.bind List.head? = none → decodeClaude d = "")
    ∧ callClaude baseUrl apiKey model messages (fun _ => FetchOutcome.ok d)
        = Except.ok (decodeClaude d) := by
  refine ⟨?_, ?_, ?_, rfl, ?_, ?_, ?_, ?_, ?_, rfl⟩
  · intro m0 h
    simp [claudeBody, h]
  · intro w hw
    simp only [claudeBody, List.mem_map] at hw
    obtain ⟨m, _, rfl⟩ := hw
    cases hr : (m.role == Role.assistant) <;> simp [hr]
  · simp only [claudeBody]
    apply List.map_congr_left
    intro m _
    cases hr : m.role <;> rfl
  · simp [claudeRequest]
  · simp [claudeRequest]
  · intro v hv
    simp only [claudeRequest, List.mem_cons, List.not_mem_nil, or_false] at hv
    rcases hv with h | h | h
    · have h1 : ("Authorization" : String) = "Content-Type" := congrArg Prod.fst h
      exact absurd h1 (by decide)
    · have h1 : ("Authorization" : String) = "x-api-key" := congrArg Prod.fst h
      exact absurd h1 (by decide)
    · have h1 : ("Authorization" : String) = "anthropic-version" :=
        congrArg Prod.fst h
      exact absurd h1 (by decide)
  · intro blk h
    simp [decodeClaude, h]
  · intro h
    simp [decodeClaude, h]

/-- C5 witness: for a history holding the system instruction and one user
turn, the body lifts the system instruction into the system field. -/
theorem C5_claude_translator_witness :
    (claudeBody "claude-3-5-sonnet-20241022"
        [systemMsg, { role := Role.user, content := "hi" }]).system
      = SYSTEM_INSTRUCTION :=
  (C5_claude_translator "https://api.anthropic.com" "sk-ant" 
      "claude-3-5-sonnet-20241022"
      [systemMsg, { role := Role.user, content := "hi" }]
      { content := none }).1 systemMsg rfl

/-- Two strings with the same character data are equal. -/
theorem stringDataEq {a b : String} (h : a.data = b.data) : a = b := by
  cases a; cases b; exact congrArg String.mk h

/-- C7: the OpenAI-compatible translator issues a POST to
{baseUrl}/chat/completions with a trailing slash on baseUrl stripped
before concatenation, authenticates with Authorization: Bearer, and sends
the model, the messages with roles passed through unchanged, temperature
0.7 and max_tokens 4096. -/
theorem C7_openai_wire (baseUrl apiKey model : String)
    (messages : List ChatMessage) :
    (openAICompatRequest baseUrl apiKey model messages).method = "POST"
    ∧ (openAICompatRequest baseUrl apiKey model messages).url
        = stripTrailingSlash baseUrl ++ "/chat/completions"
    ∧ (endsWithSlash baseUrl = true →
        stripTrailingSlash baseUrl ++ "/" = baseUrl)
    ∧ (endsWithSlash baseUrl = false → stripTrailingSlash baseUrl = baseUrl)
    ∧ ("Authorization", "Bearer " ++ apiKey)
        ∈ (openAICompatRequest baseUrl apiKey model messages).headers
    ∧ (openAICompatRequest baseUrl apiKey model messages).body
        = RequestBody.openaiCompat
            { model := model
              messages := messages.map fun m =>
                { role := match m.role with
                          | Role.user => "user"
                          | Role.assistant => "assistant"
                          | Role.system => "system"
                  content := m.content }
              temperature := decimalZeroPointSeven
              max_tokens := 4096 } := by
  refine ⟨rfl, rfl, ?_, ?_, by simp [openAICompatRequest], ?_⟩
  · intro h
    unfold endsWithSlash at h
    unfold stripTrailingSlash
    cases hr : baseUrl.data.reverse with
    | nil => rw [hr] at h; exact absurd h (by simp)
    | cons c rest =>
      rw [hr] at h
      have h2 : (c == '/') = true := h
      have hc : c = '/' := by simpa using h2
      show (if c == '/' then String.mk rest.reverse else baseUrl) ++ "/" = baseUrl
      rw [if_pos h2]
      apply stringDataEq
      rw [String.data_append]
      have hdata : baseUrl.data = rest.reverse ++ [c] := by
        have h3 := congrArg List.reverse hr
        simpa using h3
      rw [hdata, hc]
  · intro h
    unfold endsWithSlash at h
    unfold stripTrailingSlash
    cases hr : baseUrl.data.reverse with
    | nil => rfl
    | cons c rest =>
      rw [hr] at h
      have h2 : (c == '/') = false := h
      simp [h2]
  · simp only [openAICompatRequest]
    refine congrArg RequestBody.openaiCompat ?_
    refine congrArg (fun l => OpenAIRequestBody.mk model l decimalZeroPointSeven 4096) ?_
    apply List.map_congr_left
    intro m _
    cases m.role <;> rfl

/-- C7 witness: a base URL with a trailing slash is restored by appending
the slash back to the stripped URL. -/
theorem C7_openai_wire_witness :
    stripTrailingSlash "https://api.openai.com/v1/" ++ "/"
      = "https://api.openai.com/v1/" :=
  (C7_openai_wire "https://api.openai.com/v1/" "sk-test" "gpt-4o-mini" []).2.2.1
    (by decide)

/-- C6 counterexample: for the concrete message list holding one
system-role message with empty content, a system message is present yet
the body carries no systemInstruction, because the source guards the lift
with JavaScript truthiness rather than presence. -/
theorem C6_gemini_system_lift_counterexample :
    (([{ role := Role.system, content := "" }] : List ChatMessage).find?
        fun m => m.role == Role.system)
      = some { role := Role.system, content := "" }
    ∧ (geminiBody [{ role := Role.system, content := "" }]).systemInstruction
      = none := by
  constructor <;> rfl

/-- C6 (amended): the Google-native translator posts to
{baseUrl}/models/{model}:generateContent?key={credential} with the
credential only in the query string and the content type as the only
header; assistant messages map to role model and all other non-system
messages to role user with parts [text]; the system message, when present
with non-empty content, is lifted into systemInstruction.parts[0].text
and is omitted when absent or empty; generationConfig is temperature 0.7
with maxOutputTokens 4096; a 2xx response decodes as
candidates[0].content.parts[0].text with empty string when absent. -/
theorem C6_gemini_wire_amended (baseUrl apiKey model : String)
    (messages : List ChatMessage) (d : GeminiResponseBody) :
    (geminiRequest baseUrl apiKey model messages).url
        = stripTrailingSlash baseUrl ++ "/models/" ++ model
          ++ ":generateContent?key=" ++ apiKey
    ∧ (geminiRequest baseUrl apiKey model messages).headers
        = [("Content-Type", "application/json")]
    ∧ (geminiBody messages).contents
        = (messages.filter fun m => m.role != Role.system).map
            (fun m =>
              { role := match m.role with
                        | Role.assistant => "model"
                        | _ => "user"
                parts := [{ text := m.content }] })
    ∧ (geminiBody messages).generationConfig
        = { temperature := decimalZeroPointSeven, maxOutputTokens := 4096 }
    ∧ (∀ m0, (messages.find? fun m => m.role == Role.system) = some m0 →
        m0.content ≠ "" →
        (geminiBody messages).systemInstruction
          = some { parts := [{ text := m0.content }] })
    ∧ ((messages.find? fun m => m.role == Role.system) = none →
        (geminiBody messages).systemInstruction = none)
    ∧ (∀ m0, (messages.find? fun m => m.role == Role.system) = some m0 →
        m0.content = "" →
        (geminiBody messages).systemInstruction = none)
    ∧ (∀ blk, ((((d.candidates.bind List.head?).bind fun c => c.content).bind
          fun ct => ct.parts).bind List.head?) = some blk →
        decodeGemini d = blk.text.getD "")
    ∧ (((((d.candidates.bind List.head?).bind fun c => c.content).bind
          fun ct => ct.parts).bind List.head?) = none → decodeGemini d = "")
    ∧ callGemini baseUrl apiKey model messages (fun _ => FetchOutcome.ok d)
        = Except.ok (decodeGemini d) := by
  refine ⟨rfl, rfl, ?_, rfl, ?_, ?_, ?_, ?_, ?_, rfl⟩
  · simp only [geminiBody]
    apply List.map_congr_left
    intro m _
    cases m.role <;> rfl
  · intro m0 h hne
    have hb : (m0.content == "") = false := beq_eq_false_iff_ne.mpr hne
    simp [geminiBody, h, hb]
  · intro h
    simp [geminiBody, h]
  · intro m0 h he
    simp [geminiBody, h, he]
  · intro blk h
    simp [decodeGemini, h]
  · intro h
    simp [decodeGemini, h]

/-- C6 witness: a history headed by the fixed system instruction lifts it
into systemInstruction. -/
theorem C6_gemini_wire_amended_witness :
    (geminiBody [systemMsg, { role := Role.user, content := "hi" }]).systemInstruction
      = some { parts := [{ text := SYSTEM_INSTRUCTION }] } :=
  (C6_gemini_wire_amended "https://generativelanguage.googleapis.com/v1beta"
      "AIza-test" "gemini-2.0-flash-exp"
      [systemMsg, { role := Role.user, content := "hi" }]
      { candidates := none }).2.2.2.2.1 systemMsg rfl (by decide)
